import Mathlib

/-!
Verification of the conversion pipeline of the 2d-to-3d plan converter
(src/gui_app.py), as a shallow embedding.

The program is a GUI wrapper around a two-stage conversion: a floorplan
analysis library call followed by a Blender subprocess that builds a
scene file.  The embedding models the worker thread
`ConversionWorker.run` as a total function from an external-environment
record `World` and a `Request` to a trace of observable items
(progress/terminal notifications and collaborator calls), transcribed
branch by branch from the Python source.  Filesystem existence, the
version probe, the analysis call, the directory glob and the build
subprocess are the only external effects; each is a field of `World`,
fixed for the duration of one run.
-/

/-- Observable items emitted during one pipeline run, in order:
progress signals, the two terminal signals (finished / error), and the
calls to external collaborators (analysis library, tool locator loop,
verification, subprocess spawn with its full argument list). -/
inductive TraceItem where
  | progress (msg : String)
  | emitFinished (msg : String)
  | emitError (msg : String)
  | callAnalyze
  | callLocate
  | callVerify
  | callSpawn (args : List String)
deriving DecidableEq, Repr

/-- Outcome of running `[blender_path, "--version"]` with a 10 second
timeout, as seen by `verify_blender`: a normal exit with a code, a
timeout, or a launch failure (for example the executable path does not
exist).  The message fields carry the Python str(e) rendering. -/
inductive ProbeOutcome where
  | exits (code : Int)
  | timedOut (message : String)
  | launchFailure (message : String)
deriving DecidableEq, Repr

/-- Outcome of the build subprocess run by `create_blend_file` with
check=True: exit code 0 (with a flag recording whether the expected
target file exists on disk afterwards, plus captured stdout/stderr),
a non-zero exit (raising CalledProcessError carrying stderr), or a
launch failure raising some other exception. -/
inductive BuildOutcome where
  | exitZero (artifactWritten : Bool) (stdout stderr : String)
  | exitNonzero (stderr : String)
  | launchFailure (message : String)
deriving DecidableEq, Repr

/-- The external environment of one pipeline run: which paths exist on
disk, the behaviour of the version probe per executable path, the
result of the analysis call `simple_single` (Except models a Python
exception), the result of the glob Blender/*.py, the behaviour of the
build subprocess, the current working directory string, and the
timestamp string produced by datetime.now().strftime. -/
structure World where
  fs : List String
  versionProbe : String → ProbeOutcome
  analysis : Except String String
  blenderPy : List String
  build : BuildOutcome
  cwd : String
  timestamp : String

/-- One conversion request: the selected source image path and the
optional Blender path handed to the worker constructor (None or a
string, possibly empty — Python truthiness treats the empty string
like None). -/
structure Request where
  image_path : String
  blender_path : Option String

/-- The ordered list of well-known Blender installation paths probed by
`ConversionWorker.find_blender`; the identical literal list appears
again in `MainWindow.detect_blender`. -/
def possible_paths : List String :=
  [ "C:\\Program Files\\Blender Foundation\\Blender 4.5\\blender.exe"
  , "C:\\Program Files\\Blender Foundation\\Blender 4.4\\blender.exe"
  , "C:\\Program Files\\Blender Foundation\\Blender 4.3\\blender.exe"
  , "C:\\Program Files\\Blender Foundation\\Blender 4.2\\blender.exe"
  , "C:\\Program Files\\Blender Foundation\\Blender 4.1\\blender.exe"
  , "C:\\Program Files\\Blender Foundation\\Blender 4.0\\blender.exe"
  , "C:\\Program Files\\Blender Foundation\\Blender 3.6\\blender.exe"
  , "C:\\Program Files\\Blender Foundation\\Blender 3.5\\blender.exe"
  , "C:\\Program Files\\Blender Foundation\\Blender 3.4\\blender.exe"
  , "C:\\Program Files\\Blender Foundation\\Blender 3.3\\blender.exe"
  , "C:\\Program Files\\Blender Foundation\\Blender 3.2\\blender.exe"
  , "C:\\Program Files\\Blender Foundation\\Blender 3.1\\blender.exe"
  , "C:\\Program Files\\Blender Foundation\\Blender 3.0\\blender.exe" ]

/-- `ConversionWorker.find_blender`: return the first well-known path
that exists on disk, else None.  No search-path lookup here. -/
def find_blender (fs : List String) : Option String :=
  possible_paths.find? (fun p => fs.contains p)

/-- `MainWindow.detect_blender`: probe the well-known paths first; if
none exists, fall back to the `where blender` search-path lookup.
`whereLookup` is the processed result of that lookup: some line when
the subprocess exits 0 (first line of stdout), none when it exits
non-zero or raises. -/
def detect_blender (fs : List String) (whereLookup : Option String) : Option String :=
  match find_blender fs with
  | some p => some p
  | none => whereLookup

/-- Relative path of the primary Blender automation script checked by
both `verify_blender` and `create_blend_file`. -/
def primary_script : String := "Blender/floorplan_to_3dObject_in_blender.py"

/-- `ConversionWorker.verify_blender`: run the version probe; a
non-zero exit raises "Blender installation invalid", then the script
existence check raises "Blender script not found: ..." when the script
is absent.  The surrounding try/except re-wraps every exception
(including timeout and launch failure of the probe) with the prefix
"Blender verification failed: ". -/
def verify_blender (w : World) (blender_path : String) : Except String Unit :=
  match w.versionProbe blender_path with
  | ProbeOutcome.exits code =>
      if code ≠ 0 then
        Except.error "Blender verification failed: Blender installation invalid"
      else if w.fs.contains primary_script then
        Except.ok ()
      else
        Except.error ("Blender verification failed: Blender script not found: " ++ primary_script)
  | ProbeOutcome.timedOut m => Except.error ("Blender verification failed: " ++ m)
  | ProbeOutcome.launchFailure m => Except.error ("Blender verification failed: " ++ m)

/-- Script selection inside `ConversionWorker.create_blend_file`: use
the primary script if it exists, else fall back to the first file of
the glob Blender/*.py, else none (which the caller turns into the
"No Blender script found" exception). -/
def pick_script (w : World) : Option String :=
  if w.fs.contains primary_script then some primary_script
  else w.blenderPy.head?

/-- `ConversionWorker.create_blend_file`: select the script, spawn the
build subprocess with the fixed argument list, and translate its
outcome.  Returns the emitted trace (the spawn, when reached) and
either normal return or the exception escaping to the caller:
CalledProcessError is re-raised as "Blender execution failed: stderr";
every other exception (no script found, launch failure) is re-raised
as "Failed to create .blend file: ...". -/
def create_blend_file (w : World) (blender_path data_path target_filename : String) :
    List TraceItem × Except String Unit :=
  match pick_script w with
  | none => ([], Except.error "Failed to create .blend file: No Blender script found")
  | some blender_script =>
      ([TraceItem.callSpawn
          [ blender_path, "-noaudio", "--background", "--python", blender_script
          , w.cwd, target_filename, data_path ]],
       match w.build with
       | BuildOutcome.exitZero _ _ _ => Except.ok ()
       | BuildOutcome.exitNonzero stderr =>
           Except.error ("Blender execution failed: " ++ stderr)
       | BuildOutcome.launchFailure m =>
           Except.error ("Failed to create .blend file: " ++ m))

/-- Whether the expected target file exists on disk after the build
subprocess has returned normally (only queried on the zero-exit path,
where it is the artifactWritten flag of the outcome). -/
def artifact_exists (w : World) : Bool :=
  match w.build with
  | BuildOutcome.exitZero written _ _ => written
  | _ => false

/-- The line `blender_path = self.blender_path or self.find_blender()`:
a truthy (present and non-empty) override is adopted as is; otherwise
`find_blender` is consulted, which is the only case emitting a
callLocate trace item. -/
def locate_step (w : World) (override : Option String) :
    List TraceItem × Option String :=
  match override with
  | some s =>
      if s.isEmpty then ([TraceItem.callLocate], find_blender w.fs)
      else ([], some s)
  | none => ([TraceItem.callLocate], find_blender w.fs)

/-- Path(p).stem: the final path component of p with its last suffix
removed. -/
def stem (p : String) : String :=
  let base := (p.splitOn "/").getLastD p
  let parts := base.splitOn "."
  if parts.length ≤ 1 then base else String.intercalate "." parts.dropLast

/-- The body of `ConversionWorker.run` inside the outer try: the trace
emitted so far, together with either normal return (ok) or an
exception escaping to the outer except clause (error).  Transcribed
branch by branch: progress, analysis call, progress, tool resolution,
verification (its failure is caught locally and emitted), filename
derivation, create_blend_file, and the final artifact existence
check. -/
def run_body (w : World) (req : Request) : List TraceItem × Except String Unit :=
  match w.analysis with
  | Except.error e =>
      ([TraceItem.progress "Processing...", TraceItem.callAnalyze], Except.error e)
  | Except.ok data_path =>
      match locate_step w req.blender_path with
      | (locTrace, none) =>
          ([TraceItem.progress "Processing...", TraceItem.callAnalyze,
            TraceItem.progress "Generating 3D model in Blender..."] ++ locTrace ++
           [TraceItem.emitError "❌ Blender not found. Please install Blender or configure the path."],
           Except.ok ())
      | (locTrace, some blender_path) =>
          match verify_blender w blender_path with
          | Except.error e =>
              ([TraceItem.progress "Processing...", TraceItem.callAnalyze,
                TraceItem.progress "Generating 3D model in Blender..."] ++ locTrace ++
               [TraceItem.callVerify,
                TraceItem.emitError ("❌ Blender verification failed: " ++ e)],
               Except.ok ())
          | Except.ok _ =>
              match create_blend_file w blender_path data_path
                      (stem req.image_path ++ "_" ++ w.timestamp ++ ".blend") with
              | (cbfTrace, Except.error e) =>
                  ([TraceItem.progress "Processing...", TraceItem.callAnalyze,
                    TraceItem.progress "Generating 3D model in Blender..."] ++ locTrace ++
                   [TraceItem.callVerify] ++ cbfTrace,
                   Except.error e)
              | (cbfTrace, Except.ok _) =>
                  if artifact_exists w then
                    ([TraceItem.progress "Processing...", TraceItem.callAnalyze,
                      TraceItem.progress "Generating 3D model in Blender..."] ++ locTrace ++
                     [TraceItem.callVerify] ++ cbfTrace ++
                     [TraceItem.emitFinished
                        ("✅ Model saved at Target/" ++
                         (stem req.image_path ++ "_" ++ w.timestamp ++ ".blend"))],
                     Except.ok ())
                  else
                    ([TraceItem.progress "Processing...", TraceItem.callAnalyze,
                      TraceItem.progress "Generating 3D model in Blender..."] ++ locTrace ++
                     [TraceItem.callVerify] ++ cbfTrace ++
                     [TraceItem.emitError "❌ Failed to create .blend file"],
                     Except.ok ())

/-- `ConversionWorker.run`: the body under the outer
try/except Exception boundary, which converts any escaping exception
into a terminal error emission "❌ Error: str(e)". -/
def run (w : World) (req : Request) : List TraceItem :=
  match run_body w req with
  | (tr, Except.ok _) => tr
  | (tr, Except.error e) => tr ++ [TraceItem.emitError ("❌ Error: " ++ e)]

/-- Whether a trace item is a terminal notification (finished or
error signal). -/
def isTerminalEvent : TraceItem → Bool
  | TraceItem.emitFinished _ => true
  | TraceItem.emitError _ => true
  | _ => false

/-- Whether a trace item is the success terminal. -/
def isFinishedEvent : TraceItem → Bool
  | TraceItem.emitFinished _ => true
  | _ => false

/-- Whether a trace item is the failure terminal. -/
def isErrorEvent : TraceItem → Bool
  | TraceItem.emitError _ => true
  | _ => false

/-- Whether a trace item is a progress notification. -/
def isProgressEvent : TraceItem → Bool
  | TraceItem.progress _ => true
  | _ => false

/-- Whether a trace item is the analysis collaborator call. -/
def isCallAnalyze : TraceItem → Bool
  | TraceItem.callAnalyze => true
  | _ => false

/-- Whether a trace item is the tool locator loop. -/
def isCallLocate : TraceItem → Bool
  | TraceItem.callLocate => true
  | _ => false

/-- Whether a trace item is the verification call. -/
def isCallVerify : TraceItem → Bool
  | TraceItem.callVerify => true
  | _ => false

/-- Whether a trace item is the build subprocess spawn. -/
def isCallSpawn : TraceItem → Bool
  | TraceItem.callSpawn _ => true
  | _ => false

/-- `MainWindow.load_blender_path`: when the config file exists,
read it and strip surrounding whitespace (persistedContent models the
stripped text), then adopt the resulting path when it exists on disk,
overriding whatever `detect_blender` had already stored; otherwise
keep the current value. -/
def load_blender_path (fs : List String) (persistedContent : Option String)
    (current : Option String) : Option String :=
  match persistedContent with
  | none => current
  | some content => if fs.contains content then some content else current

/-- `MainWindow.save_blender_path`: writes the path as the whole
content of blender_path.txt, so a later startup reads it back as the
persisted content. -/
def save_blender_path (path : String) : Option String := some path

/-- Startup resolution of the tool path in `MainWindow.__init__`:
`detect_blender` first, then `load_blender_path` over its result. -/
def startup_resolution (fs : List String) (whereLookup : Option String)
    (persistedContent : Option String) : Option String :=
  load_blender_path fs persistedContent (detect_blender fs whereLookup)

/-- The filesystem candidates probed by the detect loop, in order: the
well-known paths up to and including the first that exists (the loop
breaks there). -/
def probe_sequence (fs : List String) : List String → List String
  | [] => []
  | p :: rest => if fs.contains p then [p] else p :: probe_sequence fs rest

/-- The tool-path candidates considered during startup, in the order
the code considers them: the detect loop over the well-known paths
first (`MainWindow.__init__` calls detect_blender before
load_blender_path), then the persisted path when the config file
exists. -/
def startup_probe_order (fs : List String) (persistedContent : Option String) :
    List String :=
  probe_sequence fs possible_paths ++
    match persistedContent with
    | some content => [content]
    | none => []

/-- A baseline environment for concrete evaluations: the automation
script and the newest well-known Blender path exist, the probe exits
0, analysis succeeds, and the build writes the artifact. -/
def baseWorld : World :=
  { fs := [primary_script,
           "C:\\Program Files\\Blender Foundation\\Blender 4.5\\blender.exe"]
  , versionProbe := fun _ => ProbeOutcome.exits 0
  , analysis := Except.ok "Data/floorplan0"
  , blenderPy := []
  , build := BuildOutcome.exitZero true "" ""
  , cwd := "C:/app"
  , timestamp := "20261012_093000" }

/-- A baseline request with no tool-path override. -/
def baseRequest : Request := { image_path := "plan.png", blender_path := none }

/-- A baseline request with a non-empty tool-path override. -/
def overrideRequest : Request :=
  { image_path := "plan.png", blender_path := some "C:/custom/blender.exe" }

/-- A filesystem for the persistence round trip where both a
well-known installation path and a custom persisted path exist. -/
def roundTripFs : List String :=
  [ "C:\\Program Files\\Blender Foundation\\Blender 4.5\\blender.exe"
  , "C:/custom/blender.exe" ]

/-- A world whose build subprocess exits 0 without writing the
artifact. -/
def artifactMissingWorld : World :=
  { baseWorld with build := BuildOutcome.exitZero false "" "" }

/-- A world whose analysis call raises. -/
def analysisFailWorld : World :=
  { baseWorld with analysis := Except.error "unreadable image" }

/-- A world where the executable exists and probes fine but the
automation script is absent. -/
def missingScriptWorld : World :=
  { baseWorld with
      fs := ["C:\\Program Files\\Blender Foundation\\Blender 4.5\\blender.exe"] }

/-- A world where launching the version probe fails (for example the
configured executable path does not exist). -/
def overrideFailWorld : World :=
  { baseWorld with
      versionProbe := fun _ => ProbeOutcome.launchFailure "No such file or directory" }

/-- A world with no primary automation script but one other Python
file in the script directory. -/
def fallbackScriptWorld : World :=
  { baseWorld with fs := [], blenderPy := ["Blender/other_script.py"] }

/-- A world with no primary automation script and an empty script
directory. -/
def noScriptWorld : World :=
  { baseWorld with fs := [], blenderPy := [] }

/-- Evaluation lemmas for the trace predicates on each constructor,
so that simp computes filters and searches over symbolic traces. -/
@[simp] theorem isTerminalEvent_progress (m : String) : isTerminalEvent (TraceItem.progress m) = false := rfl
@[simp] theorem isTerminalEvent_emitFinished (m : String) : isTerminalEvent (TraceItem.emitFinished m) = true := rfl
@[simp] theorem isTerminalEvent_emitError (m : String) : isTerminalEvent (TraceItem.emitError m) = true := rfl
@[simp] theorem isTerminalEvent_callAnalyze : isTerminalEvent TraceItem.callAnalyze = false := rfl
@[simp] theorem isTerminalEvent_callLocate : isTerminalEvent TraceItem.callLocate = false := rfl
@[simp] theorem isTerminalEvent_callVerify : isTerminalEvent TraceItem.callVerify = false := rfl
@[simp] theorem isTerminalEvent_callSpawn (a : List String) : isTerminalEvent (TraceItem.callSpawn a) = false := rfl
@[simp] theorem isFinishedEvent_progress (m : String) : isFinishedEvent (TraceItem.progress m) = false := rfl
@[simp] theorem isFinishedEvent_emitFinished (m : String) : isFinishedEvent (TraceItem.emitFinished m) = true := rfl
@[simp] theorem isFinishedEvent_emitError (m : String) : isFinishedEvent (TraceItem.emitError m) = false := rfl
@[simp] theorem isFinishedEvent_callAnalyze : isFinishedEvent TraceItem.callAnalyze = false := rfl
@[simp] theorem isFinishedEvent_callLocate : isFinishedEvent TraceItem.callLocate = false := rfl
@[simp] theorem isFinishedEvent_callVerify : isFinishedEvent TraceItem.callVerify = false := rfl
@[simp] theorem isFinishedEvent_callSpawn (a : List String) : isFinishedEvent (TraceItem.callSpawn a) = false := rfl
@[simp] theorem isErrorEvent_progress (m : String) : isErrorEvent (TraceItem.progress m) = false := rfl
@[simp] theorem isErrorEvent_emitFinished (m : String) : isErrorEvent (TraceItem.emitFinished m) = false := rfl
@[simp] theorem isErrorEvent_emitError (m : String) : isErrorEvent (TraceItem.emitError m) = true := rfl
@[simp] theorem isErrorEvent_callAnalyze : isErrorEvent TraceItem.callAnalyze = false := rfl
@[simp] theorem isErrorEvent_callLocate : isErrorEvent TraceItem.callLocate = false := rfl
@[simp] theorem isErrorEvent_callVerify : isErrorEvent TraceItem.callVerify = false := rfl
@[simp] theorem isErrorEvent_callSpawn (a : List String) : isErrorEvent (TraceItem.callSpawn a) = false := rfl
@[simp] theorem isProgressEvent_progress (m : String) : isProgressEvent (TraceItem.progress m) = true := rfl
@[simp] theorem isProgressEvent_emitFinished (m : String) : isProgressEvent (TraceItem.emitFinished m) = false := rfl
@[simp] theorem isProgressEvent_emitError (m : String) : isProgressEvent (TraceItem.emitError m) = false := rfl
@[simp] theorem isProgressEvent_callAnalyze : isProgressEvent TraceItem.callAnalyze = false := rfl
@[simp] theorem isProgressEvent_callLocate : isProgressEvent TraceItem.callLocate = false := rfl
@[simp] theorem isProgressEvent_callVerify : isProgressEvent TraceItem.callVerify = false := rfl
@[simp] theorem isProgressEvent_callSpawn (a : List String) : isProgressEvent (TraceItem.callSpawn a) = false := rfl
@[simp] theorem isCallAnalyze_progress (m : String) : isCallAnalyze (TraceItem.progress m) = false := rfl
@[simp] theorem isCallAnalyze_emitFinished (m : String) : isCallAnalyze (TraceItem.emitFinished m) = false := rfl
@[simp] theorem isCallAnalyze_emitError (m : String) : isCallAnalyze (TraceItem.emitError m) = false := rfl
@[simp] theorem isCallAnalyze_callAnalyze : isCallAnalyze TraceItem.callAnalyze = true := rfl
@[simp] theorem isCallAnalyze_callLocate : isCallAnalyze TraceItem.callLocate = false := rfl
@[simp] theorem isCallAnalyze_callVerify : isCallAnalyze TraceItem.callVerify = false := rfl
@[simp] theorem isCallAnalyze_callSpawn (a : List String) : isCallAnalyze (TraceItem.callSpawn a) = false := rfl
@[simp] theorem isCallLocate_progress (m : String) : isCallLocate (TraceItem.progress m) = false := rfl
@[simp] theorem isCallLocate_emitFinished (m : String) : isCallLocate (TraceItem.emitFinished m) = false := rfl
@[simp] theorem isCallLocate_emitError (m : String) : isCallLocate (TraceItem.emitError m) = false := rfl
@[simp] theorem isCallLocate_callAnalyze : isCallLocate TraceItem.callAnalyze = false := rfl
@[simp] theorem isCallLocate_callLocate : isCallLocate TraceItem.callLocate = true := rfl
@[simp] theorem isCallLocate_callVerify : isCallLocate TraceItem.callVerify = false := rfl
@[simp] theorem isCallLocate_callSpawn (a : List String) : isCallLocate (TraceItem.callSpawn a) = false := rfl
@[simp] theorem isCallVerify_progress (m : String) : isCallVerify (TraceItem.progress m) = false := rfl
@[simp] theorem isCallVerify_emitFinished (m : String) : isCallVerify (TraceItem.emitFinished m) = false := rfl
@[simp] theorem isCallVerify_emitError (m : String) : isCallVerify (TraceItem.emitError m) = false := rfl
@[simp] theorem isCallVerify_callAnalyze : isCallVerify TraceItem.callAnalyze = false := rfl
@[simp] theorem isCallVerify_callLocate : isCallVerify TraceItem.callLocate = false := rfl
@[simp] theorem isCallVerify_callVerify : isCallVerify TraceItem.callVerify = true := rfl
@[simp] theorem isCallVerify_callSpawn (a : List String) : isCallVerify (TraceItem.callSpawn a) = false := rfl
@[simp] theorem isCallSpawn_progress (m : String) : isCallSpawn (TraceItem.progress m) = false := rfl
@[simp] theorem isCallSpawn_emitFinished (m : String) : isCallSpawn (TraceItem.emitFinished m) = false := rfl
@[simp] theorem isCallSpawn_emitError (m : String) : isCallSpawn (TraceItem.emitError m) = false := rfl
@[simp] theorem isCallSpawn_callAnalyze : isCallSpawn TraceItem.callAnalyze = false := rfl
@[simp] theorem isCallSpawn_callLocate : isCallSpawn TraceItem.callLocate = false := rfl
@[simp] theorem isCallSpawn_callVerify : isCallSpawn TraceItem.callVerify = false := rfl
@[simp] theorem isCallSpawn_callSpawn (a : List String) : isCallSpawn (TraceItem.callSpawn a) = true := rfl

/-- The trace of the tool-resolution line is empty (override adopted)
or a single locator call. -/
theorem locate_step_fst (w : World) (o : Option String) :
    (locate_step w o).1 = [] ∨ (locate_step w o).1 = [TraceItem.callLocate] := by
  unfold locate_step
  rcases o with _ | s
  · exact Or.inr rfl
  · by_cases h : s.isEmpty <;> simp [h]

/-- The trace of create_blend_file is empty (no script found) or a
single spawn. -/
theorem create_blend_file_cases (w : World) (a b c : String) :
    (create_blend_file w a b c).1 = [] ∨
    ∃ args, (create_blend_file w a b c).1 = [TraceItem.callSpawn args] := by
  unfold create_blend_file
  cases pick_script w
  · exact Or.inl rfl
  · exact Or.inr ⟨_, rfl⟩

/-- Successful verification implies the primary automation script is
on disk. -/
theorem verify_ok_script (w : World) (bp : String)
    (h : verify_blender w bp = Except.ok ()) :
    w.fs.contains primary_script = true := by
  unfold verify_blender at h
  cases hp : w.versionProbe bp with
  | exits code =>
      rw [hp] at h
      by_cases hc : code ≠ 0
      · simp [hc] at h
      · by_cases hs : w.fs.contains primary_script
        · exact hs
        · simp only [hc, if_false, if_neg hs, ite_false] at h
          · simp at h
  | timedOut m => rw [hp] at h; simp at h
  | launchFailure m => rw [hp] at h; simp at h

/-- Case analysis on the trace of one run: analysis raised (trace ends
in the boundary error), or the tool was not found (error after the
locate items), or verification was reached and a terminal directly
follows it (verification failure, missing script, or a degenerate
build with no spawn), or the spawn happened and a terminal follows
it.  In every case the trace ends in a terminal item and contains no
other terminal. -/
theorem run_cases (w : World) (req : Request) :
    ∃ lt, (lt = ([] : List TraceItem) ∨ lt = [TraceItem.callLocate]) ∧
      ((∃ e, run w req =
          [TraceItem.progress "Processing...", TraceItem.callAnalyze,
           TraceItem.emitError e]) ∨
       (∃ e, run w req =
          [TraceItem.progress "Processing...", TraceItem.callAnalyze,
           TraceItem.progress "Generating 3D model in Blender..."] ++ lt ++
          [TraceItem.emitError e]) ∨
       (∃ t, isTerminalEvent t = true ∧ run w req =
          [TraceItem.progress "Processing...", TraceItem.callAnalyze,
           TraceItem.progress "Generating 3D model in Blender..."] ++ lt ++
          [TraceItem.callVerify, t]) ∨
       (∃ args t, isTerminalEvent t = true ∧ run w req =
          [TraceItem.progress "Processing...", TraceItem.callAnalyze,
           TraceItem.progress "Generating 3D model in Blender..."] ++ lt ++
          [TraceItem.callVerify, TraceItem.callSpawn args, t])) := by
  unfold run run_body
  cases ha : w.analysis with
  | error e => exact ⟨[], Or.inl rfl, Or.inl ⟨_, rfl⟩⟩
  | ok dp =>
    rcases hl : locate_step w req.blender_path with ⟨lt, o⟩
    have hlt : lt = [] ∨ lt = [TraceItem.callLocate] := by
      have h := locate_step_fst w req.blender_path
      rw [hl] at h
      exact h
    cases o with
    | none => exact ⟨lt, hlt, Or.inr (Or.inl ⟨_, rfl⟩)⟩
    | some bp =>
      cases hv : verify_blender w bp with
      | error e =>
        refine ⟨lt, hlt, Or.inr (Or.inr (Or.inl
          ⟨TraceItem.emitError ("❌ Blender verification failed: " ++ e), rfl, ?_⟩))⟩
        simp [hv]
      | ok u =>
        rcases hc : create_blend_file w bp dp
            (stem req.image_path ++ "_" ++ w.timestamp ++ ".blend") with ⟨ct, res⟩
        have hct : ct = [] ∨ ∃ args, ct = [TraceItem.callSpawn args] := by
          have h := create_blend_file_cases w bp dp
            (stem req.image_path ++ "_" ++ w.timestamp ++ ".blend")
          rw [hc] at h
          exact h
        cases res with
        | error e =>
          rcases hct with rfl | ⟨args, rfl⟩
          · refine ⟨lt, hlt, Or.inr (Or.inr (Or.inl
              ⟨TraceItem.emitError ("❌ Error: " ++ e), rfl, ?_⟩))⟩
            simp [hv, hc]
          · refine ⟨lt, hlt, Or.inr (Or.inr (Or.inr ⟨args,
              TraceItem.emitError ("❌ Error: " ++ e), rfl, ?_⟩))⟩
            simp [hv, hc]
        | ok u2 =>
          by_cases hart : artifact_exists w
          · rcases hct with rfl | ⟨args, rfl⟩
            · refine ⟨lt, hlt, Or.inr (Or.inr (Or.inl
                ⟨TraceItem.emitFinished ("✅ Model saved at Target/" ++
                  (stem req.image_path ++ "_" ++ w.timestamp ++ ".blend")), rfl, ?_⟩))⟩
              simp [hv, hc, hart]
            · refine ⟨lt, hlt, Or.inr (Or.inr (Or.inr ⟨args,
                TraceItem.emitFinished ("✅ Model saved at Target/" ++
                  (stem req.image_path ++ "_" ++ w.timestamp ++ ".blend")), rfl, ?_⟩))⟩
              simp [hv, hc, hart]
          · rcases hct with rfl | ⟨args, rfl⟩
            · refine ⟨lt, hlt, Or.inr (Or.inr (Or.inl
                ⟨TraceItem.emitError "❌ Failed to create .blend file", rfl, ?_⟩))⟩
              simp [hv, hc, hart]
            · refine ⟨lt, hlt, Or.inr (Or.inr (Or.inr ⟨args,
                TraceItem.emitError "❌ Failed to create .blend file", rfl, ?_⟩))⟩
              simp [hv, hc, hart]

/-- Every run trace contains exactly one terminal notification and it
is the last item of the trace. -/
theorem run_terminal_shape (w : World) (req : Request) :
    ∃ t, (run w req).filter isTerminalEvent = [t] ∧
      (run w req).getLast? = some t ∧ isTerminalEvent t = true := by
  obtain ⟨lt, hlt, hcase⟩ := run_cases w req
  rcases hcase with ⟨e, hr⟩ | ⟨e, hr⟩ | ⟨t, ht, hr⟩ | ⟨args, t, ht, hr⟩
  · refine ⟨TraceItem.emitError e, ?_, ?_, rfl⟩
    · rw [hr]; rfl
    · rw [hr]; rfl
  · rcases hlt with rfl | rfl
    · refine ⟨TraceItem.emitError e, ?_, ?_, rfl⟩
      · rw [hr]; rfl
      · rw [hr]; rfl
    · refine ⟨TraceItem.emitError e, ?_, ?_, rfl⟩
      · rw [hr]; rfl
      · rw [hr]; rfl
  · rcases hlt with rfl | rfl
    · refine ⟨t, ?_, ?_, ht⟩
      · rw [hr]
        simp [isTerminalEvent, ht]
        exact ht
      · rw [hr]; simp
    · refine ⟨t, ?_, ?_, ht⟩
      · rw [hr]
        simp [isTerminalEvent, ht]
        exact ht
      · rw [hr]; simp
  · rcases hlt with rfl | rfl
    · refine ⟨t, ?_, ?_, ht⟩
      · rw [hr]
        simp [isTerminalEvent, ht]
        exact ht
      · rw [hr]; simp
    · refine ⟨t, ?_, ?_, ht⟩
      · rw [hr]
        simp [isTerminalEvent, ht]
        exact ht
      · rw [hr]; simp

/-- When the target file is absent after the build, no success signal
appears anywhere in the trace: the only branch emitting emitFinished
is guarded by the artifact existence check. -/
theorem run_no_finished (w : World) (req : Request)
    (h : artifact_exists w = false) :
    (run w req).filter isFinishedEvent = [] := by
  unfold run run_body
  cases ha : w.analysis with
  | error e => rfl
  | ok dp =>
    rcases hl : locate_step w req.blender_path with ⟨lt, o⟩
    have hlt := locate_step_fst w req.blender_path
    rw [hl] at hlt
    cases o with
    | none => rcases hlt with rfl | rfl <;> rfl
    | some bp =>
      cases hv : verify_blender w bp with
      | error e => rcases hlt with rfl | rfl <;> simp [hv, isFinishedEvent]
      | ok u =>
        rcases hc : create_blend_file w bp dp
            (stem req.image_path ++ "_" ++ w.timestamp ++ ".blend") with ⟨ct, res⟩
        have hct := create_blend_file_cases w bp dp
          (stem req.image_path ++ "_" ++ w.timestamp ++ ".blend")
        rw [hc] at hct
        cases res with
        | error e =>
          rcases hct with rfl | ⟨args, rfl⟩ <;> rcases hlt with rfl | rfl <;>
            simp [hv, hc, isFinishedEvent]
        | ok u2 =>
          rcases hct with rfl | ⟨args, rfl⟩ <;> rcases hlt with rfl | rfl <;>
            simp [hv, hc, h, isFinishedEvent]

/-- C1: for every conversion request, the pipeline run emits exactly
one terminal notification (finished or error), it is the last item of
the whole trace, hence every progress notification precedes it and
nothing at all is emitted after it. -/
theorem single_terminal_notification (w : World) (req : Request) :
    ((run w req).filter isTerminalEvent).length = 1 ∧
    ∃ t, (run w req).getLast? = some t ∧ isTerminalEvent t = true := by
  obtain ⟨t, hfil, hlast, ht⟩ := run_terminal_shape w req
  exact ⟨by rw [hfil]; rfl, t, hlast, ht⟩

/-- Witness for C1 at a concrete successful run. -/
theorem single_terminal_notification_witness :
    ((run baseWorld baseRequest).filter isTerminalEvent).length = 1 ∧
    ∃ t, (run baseWorld baseRequest).getLast? = some t ∧ isTerminalEvent t = true :=
  single_terminal_notification baseWorld baseRequest

/-- C2: whenever the build subprocess exits 0 but the expected output
file is absent afterwards, the run emits a failure terminal and never
a success; the existence check guards the one branch that could emit
success. -/
theorem artifact_missing_never_success (w : World) (req : Request)
    (out err : String) (hb : w.build = BuildOutcome.exitZero false out err) :
    (run w req).filter isFinishedEvent = [] ∧
    ((run w req).filter isErrorEvent).length = 1 := by
  have hart : artifact_exists w = false := by simp [artifact_exists, hb]
  have hnf := run_no_finished w req hart
  refine ⟨hnf, ?_⟩
  obtain ⟨t, hfil, hlast, ht⟩ := run_terminal_shape w req
  have hmem : t ∈ run w req := by
    have h1 : t ∈ (run w req).filter isTerminalEvent := by
      rw [hfil]
      exact List.mem_singleton.mpr rfl
    exact List.mem_of_mem_filter h1
  have hfin : isFinishedEvent t = false := by
    cases hft : isFinishedEvent t
    · rfl
    · exfalso
      have h2 : t ∈ (run w req).filter isFinishedEvent :=
        List.mem_filter.mpr ⟨hmem, hft⟩
      rw [hnf] at h2
      exact absurd h2 (List.not_mem_nil t)
  have herr : isErrorEvent t = true := by
    cases t <;> simp_all [isTerminalEvent, isFinishedEvent, isErrorEvent]
  have hcongr : (run w req).filter isErrorEvent =
      (run w req).filter (fun a => isErrorEvent a && isTerminalEvent a) := by
    refine List.filter_congr ?_
    intro x _
    cases x <;> rfl
  rw [hcongr, ← List.filter_filter, hfil]
  simp [herr]

/-- Witness for C2: zero exit, artifact absent, concrete run. -/
theorem artifact_missing_never_success_witness :
    (run artifactMissingWorld baseRequest).filter isFinishedEvent = [] ∧
    ((run artifactMissingWorld baseRequest).filter isErrorEvent).length = 1 :=
  artifact_missing_never_success artifactMissingWorld baseRequest "" "" rfl

/-- C7: every run ends in a terminal notification, and any exception
escaping the body to the pipeline boundary is converted into exactly
one trailing error terminal; nothing propagates out of the worker
(run is total into traces). -/
theorem boundary_converts_faults (w : World) (req : Request) :
    ∃ t, (run w req).getLast? = some t ∧ isTerminalEvent t = true ∧
      ∀ tr e, run_body w req = (tr, Except.error e) →
        run w req = tr ++ [TraceItem.emitError ("❌ Error: " ++ e)] := by
  obtain ⟨t, hfil, hlast, ht⟩ := run_terminal_shape w req
  refine ⟨t, hlast, ht, ?_⟩
  intro tr e h
  unfold run
  rw [h]

/-- Witness for C7: a run whose analysis raises ends with the
boundary-converted error terminal. -/
theorem boundary_converts_faults_witness :
    run analysisFailWorld baseRequest =
      [TraceItem.progress "Processing...", TraceItem.callAnalyze,
       TraceItem.emitError "❌ Error: unreadable image"] := by
  obtain ⟨t, hlast, ht, hconv⟩ := boundary_converts_faults analysisFailWorld baseRequest
  exact hconv _ _ rfl

/-- C3: in every run whose locate and verify steps succeeded, the
build step spawns the external tool exactly once, with the argument
list in fixed order: executable, headless flags, "--python", the
primary automation script path, the current working directory, the
bare target filename (no Target/ prefix), and the intermediate data
path — exactly three positional arguments after the script path.  The
script is the primary one because successful verification implies it
exists on disk. -/
theorem spawn_args_fixed_order (w : World) (req : Request) (dp bp : String)
    (ha : w.analysis = Except.ok dp)
    (hl : (locate_step w req.blender_path).2 = some bp)
    (hv : verify_blender w bp = Except.ok ()) :
    (run w req).filter isCallSpawn =
      [TraceItem.callSpawn
        [ bp, "-noaudio", "--background", "--python", primary_script
        , w.cwd, stem req.image_path ++ "_" ++ w.timestamp ++ ".blend", dp ]] := by
  have hscript := verify_ok_script w bp hv
  have hmem : primary_script ∈ w.fs := by simpa using hscript
  have hpick : pick_script w = some primary_script := by simp [pick_script, hmem]
  rcases hls : locate_step w req.blender_path with ⟨lt, o⟩
  have hlt0 := locate_step_fst w req.blender_path
  rw [hls] at hlt0
  have hlt : lt = [] ∨ lt = [TraceItem.callLocate] := hlt0
  rw [hls] at hl
  have ho : o = some bp := hl
  subst ho
  have hc : create_blend_file w bp dp
      (stem req.image_path ++ "_" ++ w.timestamp ++ ".blend") =
      ([TraceItem.callSpawn
          [ bp, "-noaudio", "--background", "--python", primary_script
          , w.cwd, stem req.image_path ++ "_" ++ w.timestamp ++ ".blend", dp ]],
       match w.build with
       | BuildOutcome.exitZero _ _ _ => Except.ok ()
       | BuildOutcome.exitNonzero stderr =>
           Except.error ("Blender execution failed: " ++ stderr)
       | BuildOutcome.launchFailure m =>
           Except.error ("Failed to create .blend file: " ++ m)) := by
    simp [create_blend_file, hpick]
  unfold run run_body
  rw [ha, hls]
  cases hcb : w.build with
  | exitZero written sout serr =>
    cases written <;> rcases hlt with rfl | rfl <;>
      simp [hv, hc, hcb, artifact_exists, isCallSpawn]
  | exitNonzero serr => rcases hlt with rfl | rfl <;> simp [hv, hc, hcb, isCallSpawn]
  | launchFailure m => rcases hlt with rfl | rfl <;> simp [hv, hc, hcb, isCallSpawn]

/-- Witness for C3 at a concrete run: tool found at the newest
well-known path, verification succeeds, spawn happens once with the
fixed argument list. -/
theorem spawn_args_fixed_order_witness :
    (run baseWorld baseRequest).filter isCallSpawn =
      [TraceItem.callSpawn
        [ "C:\\Program Files\\Blender Foundation\\Blender 4.5\\blender.exe"
        , "-noaudio", "--background", "--python", primary_script
        , baseWorld.cwd
        , stem baseRequest.image_path ++ "_" ++ baseWorld.timestamp ++ ".blend"
        , "Data/floorplan0" ]] :=
  spawn_args_fixed_order baseWorld baseRequest "Data/floorplan0"
    "C:\\Program Files\\Blender Foundation\\Blender 4.5\\blender.exe" rfl rfl rfl

/-- C4: with no override, the startup tool locator returns none
exactly when none of the well-known installation paths exists on disk
and the search-path lookup (the `where blender` subprocess) also
fails. -/
theorem locator_none_iff (fs : List String) (whereLookup : Option String) :
    detect_blender fs whereLookup = none ↔
      ((∀ p ∈ possible_paths, fs.contains p = false) ∧ whereLookup = none) := by
  unfold detect_blender find_blender
  cases hf : possible_paths.find? (fun p => fs.contains p) with
  | some p =>
    constructor
    · intro h
      exact absurd h (by simp)
    · rintro ⟨hall, -⟩
      have hp := List.find?_some hf
      have hm := List.mem_of_find?_eq_some hf
      rw [hall p hm] at hp
      exact absurd hp (by simp)
  | none =>
    constructor
    · intro h
      refine ⟨?_, h⟩
      intro p hp
      have h2 := List.find?_eq_none.mp hf p hp
      simpa using h2
    · rintro ⟨-, hw⟩
      exact hw

/-- C6: for every executable whose version probe exits 0, verification
still fails with the script-missing diagnostic when the automation
script is absent from its known relative path; the check is
independent of the exit-code check. -/
theorem verify_script_missing_independent (w : World) (path : String)
    (hp : w.versionProbe path = ProbeOutcome.exits 0)
    (hs : w.fs.contains primary_script = false) :
    verify_blender w path =
      Except.error ("Blender verification failed: Blender script not found: " ++
        primary_script) := by
  have hnm : primary_script ∉ w.fs := by simpa using hs
  unfold verify_blender
  rw [hp]
  simp [hnm]

/-- C9: a non-empty tool-path override is adopted as the tool path
with no filesystem check (the theorem holds for every filesystem, in
particular one not containing the override), no locator fallback runs
(no callLocate in the trace), and the override goes straight to
verification, which fails the run when the probe cannot launch it. -/
theorem override_adopted_unchecked (w : World) (req : Request) (s dp m : String)
    (hreq : req.blender_path = some s)
    (hne : s.isEmpty = false)
    (ha : w.analysis = Except.ok dp)
    (hprobe : w.versionProbe s = ProbeOutcome.launchFailure m) :
    locate_step w req.blender_path = ([], some s) ∧
    run w req =
      [TraceItem.progress "Processing...", TraceItem.callAnalyze,
       TraceItem.progress "Generating 3D model in Blender...",
       TraceItem.callVerify,
       TraceItem.emitError
         ("❌ Blender verification failed: " ++ ("Blender verification failed: " ++ m))] := by
  have hloc : locate_step w req.blender_path = ([], some s) := by
    rw [hreq]
    simp [locate_step, hne]
  refine ⟨hloc, ?_⟩
  have hv : verify_blender w s =
      Except.error ("Blender verification failed: " ++ m) := by
    unfold verify_blender
    rw [hprobe]
  unfold run run_body
  rw [ha, hloc]
  simp [hv]

/-- C10: when the primary automation script is absent at build time,
create_blend_file does not fail: it silently substitutes the first
Python file of the script directory and still spawns; it raises the
no-script exception only when the directory holds no Python file at
all. -/
theorem fallback_script_substitution (w : World) (bp dp tf : String)
    (hmiss : w.fs.contains primary_script = false) :
    (∀ s rest, w.blenderPy = s :: rest →
      pick_script w = some s ∧
      (create_blend_file w bp dp tf).1 =
        [TraceItem.callSpawn
          [bp, "-noaudio", "--background", "--python", s, w.cwd, tf, dp]]) ∧
    (w.blenderPy = [] →
      create_blend_file w bp dp tf =
        ([], Except.error "Failed to create .blend file: No Blender script found")) := by
  have hnm : primary_script ∉ w.fs := by simpa using hmiss
  constructor
  · intro s rest hpy
    have hpick : pick_script w = some s := by simp [pick_script, hnm, hpy]
    exact ⟨hpick, by simp [create_blend_file, hpick]⟩
  · intro hpy
    have hpick : pick_script w = none := by simp [pick_script, hnm, hpy]
    simp [create_blend_file, hpick]

/-- Witness for C4 on the empty filesystem with a failing lookup. -/
theorem locator_none_iff_witness : detect_blender [] none = none :=
  (locator_none_iff [] none).mpr ⟨fun _ _ => rfl, rfl⟩

/-- Witness for C6: valid probe, script absent, concrete world. -/
theorem verify_script_missing_independent_witness :
    verify_blender missingScriptWorld
        "C:\\Program Files\\Blender Foundation\\Blender 4.5\\blender.exe" =
      Except.error ("Blender verification failed: Blender script not found: " ++
        primary_script) :=
  verify_script_missing_independent missingScriptWorld
    "C:\\Program Files\\Blender Foundation\\Blender 4.5\\blender.exe" rfl rfl

/-- Witness for C9: a nonexistent override is adopted and fails only
at verification, with no locator fallback in the trace. -/
theorem override_adopted_unchecked_witness :
    locate_step overrideFailWorld overrideRequest.blender_path =
      ([], some "C:/custom/blender.exe") ∧
    run overrideFailWorld overrideRequest =
      [TraceItem.progress "Processing...", TraceItem.callAnalyze,
       TraceItem.progress "Generating 3D model in Blender...",
       TraceItem.callVerify,
       TraceItem.emitError
         ("❌ Blender verification failed: " ++
          ("Blender verification failed: " ++ "No such file or directory"))] :=
  override_adopted_unchecked overrideFailWorld overrideRequest
    "C:/custom/blender.exe" "Data/floorplan0" "No such file or directory"
    rfl rfl rfl rfl

/-- Witness for C10: substitution on a one-script directory, and the
no-script failure on an empty directory. -/
theorem fallback_script_substitution_witness :
    pick_script fallbackScriptWorld = some "Blender/other_script.py" ∧
    create_blend_file noScriptWorld "B" "D" "T" =
      ([], Except.error "Failed to create .blend file: No Blender script found") :=
  ⟨((fallback_script_substitution fallbackScriptWorld "B" "D" "T" rfl).1
      "Blender/other_script.py" [] rfl).1,
   (fallback_script_substitution noScriptWorld "B" "D" "T" rfl).2 rfl⟩

/-- Counterexample to C5 as stated: in a concrete successful run the
analysis call sits at index 1 of the trace while the tool-locating
loop sits at index 3, so locating does not precede analysis. -/
theorem stage_order_counterexample :
    (run baseWorld baseRequest).findIdx? isCallAnalyze = some 1 ∧
    (run baseWorld baseRequest).findIdx? isCallLocate = some 3 ∧
    (run baseWorld baseRequest).findIdx? isCallVerify = some 4 ∧ (1 : Nat) < 3 :=
  ⟨rfl, rfl, rfl, by decide⟩

/-- C5 (amended): the actual stage order of a run is analysis first,
then tool locating, then verification, then the build spawn: whenever
two of these calls both occur in a trace, the analysis call precedes
the locate call, the locate call precedes the verify call, and the
verify call precedes the spawn. -/
theorem stage_order_analyze_first (w : World) (req : Request) :
    (∀ i j, (run w req).findIdx? isCallAnalyze = some i →
            (run w req).findIdx? isCallLocate = some j → i < j) ∧
    (∀ i j, (run w req).findIdx? isCallAnalyze = some i →
            (run w req).findIdx? isCallVerify = some j → i < j) ∧
    (∀ i j, (run w req).findIdx? isCallLocate = some i →
            (run w req).findIdx? isCallVerify = some j → i < j) ∧
    (∀ i j, (run w req).findIdx? isCallVerify = some i →
            (run w req).findIdx? isCallSpawn = some j → i < j) := by
  obtain ⟨lt, hlt, hcase⟩ := run_cases w req
  have hfacts : ∀ t : TraceItem, isTerminalEvent t = true →
      isCallAnalyze t = false ∧ isCallLocate t = false ∧
      isCallVerify t = false ∧ isCallSpawn t = false := by
    intro t ht
    cases t <;> simp_all
  rcases hcase with ⟨e, hr⟩ | ⟨e, hr⟩ | ⟨t, ht, hr⟩ | ⟨args, t, ht, hr⟩
  · refine ⟨?_, ?_, ?_, ?_⟩ <;> intro i j h1 h2 <;> rw [hr] at h2 <;> simp at h2
  · rcases hlt with rfl | rfl
    · refine ⟨?_, ?_, ?_, ?_⟩ <;> intro i j h1 h2 <;> rw [hr] at h2 <;> simp at h2
    · refine ⟨?_, ?_, ?_, ?_⟩
      · intro i j h1 h2
        rw [hr] at h1 h2
        simp at h1 h2
        omega
      · intro i j h1 h2
        rw [hr] at h2
        simp at h2
      · intro i j h1 h2
        rw [hr] at h2
        simp at h2
      · intro i j h1 h2
        rw [hr] at h2
        simp at h2
  · obtain ⟨hA, hL, hV, hS⟩ := hfacts t ht
    rcases hlt with rfl | rfl
    · refine ⟨?_, ?_, ?_, ?_⟩
      · intro i j h1 h2
        rw [hr] at h2
        simp [hL] at h2
      · intro i j h1 h2
        rw [hr] at h1 h2
        simp at h1 h2
        omega
      · intro i j h1 h2
        rw [hr] at h1
        simp [hL] at h1
      · intro i j h1 h2
        rw [hr] at h2
        simp [hS] at h2
    · refine ⟨?_, ?_, ?_, ?_⟩
      · intro i j h1 h2
        rw [hr] at h1 h2
        simp at h1 h2
        omega
      · intro i j h1 h2
        rw [hr] at h1 h2
        simp at h1 h2
        omega
      · intro i j h1 h2
        rw [hr] at h1 h2
        simp at h1 h2
        omega
      · intro i j h1 h2
        rw [hr] at h2
        simp [hS] at h2
  · obtain ⟨hA, hL, hV, hS⟩ := hfacts t ht
    rcases hlt with rfl | rfl
    · refine ⟨?_, ?_, ?_, ?_⟩
      · intro i j h1 h2
        rw [hr] at h2
        simp [hL] at h2
      · intro i j h1 h2
        rw [hr] at h1 h2
        simp at h1 h2
        omega
      · intro i j h1 h2
        rw [hr] at h1
        simp [hL] at h1
      · intro i j h1 h2
        rw [hr] at h1 h2
        simp at h1 h2
        omega
    · refine ⟨?_, ?_, ?_, ?_⟩
      · intro i j h1 h2
        rw [hr] at h1 h2
        simp at h1 h2
        omega
      · intro i j h1 h2
        rw [hr] at h1 h2
        simp at h1 h2
        omega
      · intro i j h1 h2
        rw [hr] at h1 h2
        simp at h1 h2
        omega
      · intro i j h1 h2
        rw [hr] at h1 h2
        simp at h1 h2
        omega

/-- Witness for the amended C5 ordering at a concrete run. -/
theorem stage_order_analyze_first_witness :
    (run baseWorld baseRequest).findIdx? isCallSpawn = some 5 ∧
    (1 : Nat) < 3 ∧ (1 : Nat) < 4 ∧ (3 : Nat) < 4 ∧ (4 : Nat) < 5 :=
  ⟨rfl,
   (stage_order_analyze_first baseWorld baseRequest).1 1 3 rfl rfl,
   (stage_order_analyze_first baseWorld baseRequest).2.1 1 4 rfl rfl,
   (stage_order_analyze_first baseWorld baseRequest).2.2.1 3 4 rfl rfl,
   (stage_order_analyze_first baseWorld baseRequest).2.2.2 4 5 rfl rfl⟩

/-- Counterexample to C8 as stated: with a well-known installation
path present, the persisted path still wins the resolution, but it is
the last candidate the startup code considers (detect_blender runs
before load_blender_path), not the first. -/
theorem persisted_path_counterexample :
    startup_resolution roundTripFs none (save_blender_path "C:/custom/blender.exe") =
      some "C:/custom/blender.exe" ∧
    (startup_probe_order roundTripFs (save_blender_path "C:/custom/blender.exe")).head? ≠
      some "C:/custom/blender.exe" ∧
    (startup_probe_order roundTripFs (save_blender_path "C:/custom/blender.exe")).getLast? =
      some "C:/custom/blender.exe" := by
  refine ⟨rfl, ?_, rfl⟩
  decide

/-- C8 (amended): persisting an executable path that exists on disk
and re-running startup resolution with no override yields exactly the
persisted path, regardless of which well-known installation paths
exist or what the search-path lookup returns; the persisted path is
applied last and overrides the earlier detection. -/
theorem persisted_path_round_trip (fs : List String) (whereLookup : Option String)
    (p : String) (hex : fs.contains p = true) :
    startup_resolution fs whereLookup (save_blender_path p) = some p := by
  have hm : p ∈ fs := by simpa using hex
  simp [startup_resolution, save_blender_path, load_blender_path, hm]

/-- Witness for the amended C8 on a filesystem where a well-known
path also exists. -/
theorem persisted_path_round_trip_witness :
    startup_resolution roundTripFs none (save_blender_path "C:/custom/blender.exe") =
      some "C:/custom/blender.exe" :=
  persisted_path_round_trip roundTripFs none "C:/custom/blender.exe" rfl
